import Mathlib

/-!
Verification of the movie-recommendation backend (FastAPI + surprise KNNBasic).

The development shallowly embeds the Python sources:
  * `app/database.py`   — the rating-feed SQL query (`fetch_data_from_db`),
  * `app/recommendation3.py` — `load_data`, `retrain_model`, `load_model`,
    `get_recommendations` and the module-level globals,
  * `upload_data.py`    — the bulk loader's `Movie_Genre` pair construction,
  * `main.py`           — only as context for the claims (HTTP glue).

Machine reals are embedded as `ℚ`.  The item-item Pearson similarity table
computed by the external `surprise` library is real-valued (its formula takes
square roots), so the numeric table is abstracted as a function parameter
`simOf : List Row → Int → Int → ℚ`; no claim below depends on its values,
only on how the program routes, selects and thresholds them.
-/

/-! ### List utilities

`heapq.nlargest(n, xs, key)` is specified as
`sorted(xs, key=key, reverse=True)[:n]` with a stable sort.  We embed it as a
structurally recursive stable insertion sort (descending by key) followed by
`take n`, which the kernel can evaluate on concrete inputs. -/

/-- Insert `x` into a descending-by-`key` sorted list, before the first element
whose key is `≤ key x` (so equal keys keep earlier-inserted elements later:
the fold below processes the original list from the right, giving stability). -/
def insertTop {α : Type} (key : α → ℚ) (x : α) : List α → List α
  | [] => [x]
  | y :: ys => if key y ≤ key x then x :: y :: ys else y :: insertTop key x ys

/-- Stable descending sort by `key` (insertion sort). -/
def sortDescBy {α : Type} (key : α → ℚ) : List α → List α
  | [] => []
  | x :: xs => insertTop key x (sortDescBy key xs)

/-- `heapq.nlargest(n, xs, key)`: the `n` largest elements of `xs` by `key`,
descending, ties broken by original order. -/
def nlargestBy {α : Type} (n : Nat) (key : α → ℚ) (xs : List α) : List α :=
  (sortDescBy key xs).take n

theorem mem_insertTop {α : Type} (key : α → ℚ) (x : α) (l : List α) (a : α) :
    a ∈ insertTop key x l ↔ a = x ∨ a ∈ l := by
  induction l with
  | nil => simp [insertTop]
  | cons y ys ih =>
    by_cases h : key y ≤ key x
    · simp [insertTop, h]
    · simp only [insertTop, if_neg h, List.mem_cons, ih]
      tauto

theorem perm_insertTop {α : Type} (key : α → ℚ) (x : α) (l : List α) :
    (insertTop key x l).Perm (x :: l) := by
  induction l with
  | nil => simp [insertTop]
  | cons y ys ih =>
    by_cases h : key y ≤ key x
    · simp [insertTop, h]
    · simp only [insertTop, if_neg h]
      exact (ih.cons y).trans (List.Perm.swap x y ys)

theorem length_insertTop {α : Type} (key : α → ℚ) (x : α) (l : List α) :
    (insertTop key x l).length = l.length + 1 :=
  (perm_insertTop key x l).length_eq

theorem pairwise_insertTop {α : Type} (key : α → ℚ) (x : α) (l : List α)
    (h : l.Pairwise (fun a b => key b ≤ key a)) :
    (insertTop key x l).Pairwise (fun a b => key b ≤ key a) := by
  induction l with
  | nil => simp [insertTop]
  | cons y ys ih =>
    rcases List.pairwise_cons.mp h with ⟨hy, hys⟩
    by_cases hxy : key y ≤ key x
    · rw [insertTop, if_pos hxy]
      refine List.pairwise_cons.mpr ⟨?_, h⟩
      intro z hz
      rcases List.mem_cons.mp hz with rfl | hz
      · exact hxy
      · exact le_trans (hy z hz) hxy
    · rw [insertTop, if_neg hxy]
      refine List.pairwise_cons.mpr ⟨?_, ih hys⟩
      intro z hz
      rcases (mem_insertTop key x ys z).mp hz with rfl | hz
      · exact le_of_lt (lt_of_not_le hxy)
      · exact hy z hz

theorem perm_sortDescBy {α : Type} (key : α → ℚ) (l : List α) :
    (sortDescBy key l).Perm l := by
  induction l with
  | nil => simp [sortDescBy]
  | cons x xs ih =>
    exact (perm_insertTop key x (sortDescBy key xs)).trans (ih.cons x)

theorem pairwise_sortDescBy {α : Type} (key : α → ℚ) (l : List α) :
    (sortDescBy key l).Pairwise (fun a b => key b ≤ key a) := by
  induction l with
  | nil => simp [sortDescBy]
  | cons x xs ih => exact pairwise_insertTop key x _ ih

theorem length_nlargestBy {α : Type} (n : Nat) (key : α → ℚ) (xs : List α) :
    (nlargestBy n key xs).length ≤ n := by
  simp [nlargestBy]

theorem nlargestBy_zero {α : Type} (key : α → ℚ) (xs : List α) :
    nlargestBy 0 key xs = [] := by
  simp [nlargestBy]

theorem mem_nlargestBy {α : Type} (n : Nat) (key : α → ℚ) (xs : List α) (a : α)
    (h : a ∈ nlargestBy n key xs) : a ∈ xs :=
  (perm_sortDescBy key xs).mem_iff.mp (List.take_subset n _ h)

/-- The selected elements dominate the discarded ones: `nlargestBy` splits a
permutation of the input into the chosen front and a rest of no-larger keys. -/
theorem nlargestBy_split {α : Type} (n : Nat) (key : α → ℚ) (xs : List α) :
    ∃ rest, xs.Perm (nlargestBy n key xs ++ rest) ∧
      ∀ a ∈ nlargestBy n key xs, ∀ b ∈ rest, key b ≤ key a := by
  refine ⟨(sortDescBy key xs).drop n, ?_, ?_⟩
  · rw [nlargestBy, List.take_append_drop]
    exact (perm_sortDescBy key xs).symm
  · have hp := pairwise_sortDescBy key xs
    rw [← List.take_append_drop n (sortDescBy key xs), List.pairwise_append] at hp
    exact fun a ha b hb => hp.2.2 a ha b hb

/-! Ascending sort of integers, for the sorted index/columns that
`pandas.pivot_table` produces. -/

/-- Insert into an ascending sorted list of integers. -/
def insertAsc (x : Int) : List Int → List Int
  | [] => [x]
  | y :: ys => if x ≤ y then x :: y :: ys else y :: insertAsc x ys

/-- Ascending insertion sort on integers. -/
def sortAsc : List Int → List Int
  | [] => []
  | x :: xs => insertAsc x (sortAsc xs)

theorem mem_insertAsc (x : Int) (l : List Int) (a : Int) :
    a ∈ insertAsc x l ↔ a = x ∨ a ∈ l := by
  induction l with
  | nil => simp [insertAsc]
  | cons y ys ih =>
    by_cases h : x ≤ y
    · simp [insertAsc, h]
    · simp only [insertAsc, if_neg h, List.mem_cons, ih]
      tauto

theorem mem_sortAsc (l : List Int) (a : Int) : a ∈ sortAsc l ↔ a ∈ l := by
  induction l with
  | nil => simp [sortAsc]
  | cons x xs ih => simp [sortAsc, mem_insertAsc, ih]

/-! Python `s.split("|")` over a string, embedded structurally over the
character list; it always returns at least one (possibly empty) token. -/

/-- Auxiliary splitter: `acc` holds the current token's characters reversed. -/
def splitPipeAux : List Char → List Char → List String
  | [], acc => [String.mk acc.reverse]
  | c :: cs, acc =>
      if c = '|' then String.mk acc.reverse :: splitPipeAux cs []
      else splitPipeAux cs (c :: acc)

/-- Python `s.split("|")`. -/
def splitPipe (s : String) : List String := splitPipeAux s.toList []

theorem splitPipeAux_ne_nil (cs acc : List Char) : splitPipeAux cs acc ≠ [] := by
  induction cs generalizing acc with
  | nil => simp [splitPipeAux]
  | cons c cs ih =>
    by_cases h : c = '|' <;> simp [splitPipeAux, h, ih]

theorem splitPipe_ne_nil (s : String) : splitPipe s ≠ [] :=
  splitPipeAux_ne_nil s.toList []

/-- Python `sep.join(xs)` (and SQL `STRING_AGG(..., sep)`): the tokens
joined with `sep` between consecutive ones. -/
def pyJoin (sep : String) : List String → String
  | [] => ""
  | [x] => x
  | x :: xs => x ++ sep ++ pyJoin sep xs

/-! ### Data model -/

/-- One row of the rating feed returned by `fetch_data_from_db`
(`app/database.py`, lines 14-35): columns
`user_id, movie_id, rating, title, genres` where `genres` is the
pipe-joined aggregate of the movie's genre names. -/
structure Row where
  userId : Int
  movieId : Int
  rating : ℚ
  title : String
  genres : String
deriving DecidableEq, Repr

/-- Entry of the `movie_info` dictionary built in `load_data`
(`recommendation3.py`, lines 37-41): title and pipe-joined genre string. -/
structure MovieMeta where
  title : String
  genres : String
deriving DecidableEq, Repr

/-- The pivoted rating matrix (`recommendation3.py`, line 43):
`df.pivot_table(index="userId", columns="movieId", values="rating")`.
`users`/`movies` are the sorted distinct index/columns; `cells` holds the
aggregated (mean) rating of each present `(user, movie)` cell — absent
cells are the pivot table's NaN entries. -/
structure RatingMatrix where
  users : List Int
  movies : List Int
  cells : List (Int × Int × ℚ)
deriving DecidableEq, Repr

/-- Cell lookup: `rating_matrix.loc[user][movie]`, `none` standing for NaN. -/
def RatingMatrix.cell (rm : RatingMatrix) (u m : Int) : Option ℚ :=
  (rm.cells.find? (fun c => decide (c.1 = u) && decide (c.2.1 = m))).map (fun c => c.2.2)

/-- The relational store consulted by `fetch_data_from_db`.  Genre rows are
identified by their unique `name` (the integer surrogate key of `Genre` is
abstracted away: `Movie_Genre` pairs carry the genre name directly). -/
structure DB where
  users : List Int
  movies : List (Int × String)
  genres : List String
  movieGenres : List (Int × String)
  ratings : List (Int × Int × ℚ)
deriving DecidableEq, Repr

/-- Genre names joined to movie `mid`: the SQL inner joins
`Movie_Genre mg ON m.id = mg.movie_id` and `Genre g ON mg.genre_id = g.id`
(`database.py`, lines 26-29).  A `Movie_Genre` pair whose genre name has no
`Genre` row is dropped, as by the inner join. -/
def genreNamesOf (db : DB) (mid : Int) : List String :=
  (db.movieGenres.filter (fun p => decide (p.1 = mid))).filterMap
    (fun p => if p.2 ∈ db.genres then some p.2 else none)

/-- `fetch_data_from_db` (`database.py`, lines 14-35): one output row per
rating that survives the inner joins against `Movie`, `Movie_Genre` and
`Genre`, with `STRING_AGG(g.name, '|')` as the `genres` column.  A rating
whose movie has no genre association produces no join rows and is dropped.
(`GROUP BY` output order and the `STRING_AGG` order are unspecified in SQL;
the embedding uses the store's list order.) -/
def fetch_data_from_db (db : DB) : List Row :=
  db.ratings.filterMap (fun t =>
    match db.movies.find? (fun mv => decide (mv.1 = t.2.1)) with
    | none => none
    | some mv =>
        let gs := genreNamesOf db t.2.1
        if gs.isEmpty then none
        else some ⟨t.1, t.2.1, t.2.2, mv.2, pyJoin "|" gs⟩)

/-- `upload_data.py`, lines 48-54: the bulk loader's `movie_genre_pairs`,
built from every CSV row by splitting its `genres` column on `|` and
skipping the `'(no genres listed)'` token (the same token is also excluded
from the `Genre` insert at lines 38-41).  Genre surrogate ids are
abstracted by the genre names (`genre_dict` is a bijection on the loaded
names). -/
def movie_genre_pairs (rows : List Row) : List (Int × String) :=
  rows.flatMap (fun r =>
    (splitPipe r.genres).filterMap (fun g =>
      if g = "(no genres listed)" then none else some (r.movieId, g)))

/-! ### Association-list helpers for the Python dictionaries -/

/-- Dictionary lookup `d.get(k)` on an association list. -/
def alistLookup {β : Type} (c : List (Int × β)) (k : Int) : Option β :=
  (c.find? (fun p => decide (p.1 = k))).map (fun p => p.2)

/-- Dictionary assignment `d[k] = v`: overwrite the binding if present,
append it otherwise. -/
def alistInsert {β : Type} (c : List (Int × β)) (k : Int) (v : β) : List (Int × β) :=
  if c.any (fun p => decide (p.1 = k)) then
    c.map (fun p => if p.1 = k then (k, v) else p)
  else c ++ [(k, v)]

/-! ### Dataset builder: `load_data` (`recommendation3.py`, lines 18-50) -/

/-- Python `set(genres_string.split("|"))`: the genre set a movie's
pipe-joined string denotes (duplicate-free token list; membership is all
that is consulted).  It is never empty, since `split` returns at least one
token. -/
def genreSet (s : String) : List String := (splitPipe s).dedup

theorem genreSet_ne_nil (s : String) : genreSet s ≠ [] := by
  unfold genreSet
  rw [Ne, List.dedup_eq_nil]
  exact splitPipe_ne_nil s

/-- `movie_info_local` (`recommendation3.py`, lines 37-41):
`df.drop_duplicates(subset=["movieId"]).set_index("movieId")[["title","genres"]]`,
keeping the first feed occurrence of each movie. -/
def buildMovieInfo (rows : List Row) : List (Int × MovieMeta) :=
  rows.foldl
    (fun acc r =>
      if acc.any (fun p => decide (p.1 = r.movieId)) then acc
      else acc ++ [(r.movieId, ⟨r.title, r.genres⟩)])
    []

/-- `rating_matrix_local` (`recommendation3.py`, line 43):
`df.pivot_table(index="userId", columns="movieId", values="rating")` — sorted
distinct index and columns, each present cell aggregated by the default
`mean` over the matching feed rows. -/
def buildMatrix (rows : List Row) : RatingMatrix :=
  let users := sortAsc (rows.map (fun r => r.userId)).dedup
  let movies := sortAsc (rows.map (fun r => r.movieId)).dedup
  let cells := users.flatMap (fun u => movies.filterMap (fun m =>
    let vs := (rows.filter (fun r => decide (r.userId = u) && decide (r.movieId = m))).map
      (fun r => r.rating)
    if vs.isEmpty then none else some (u, m, vs.sum / vs.length)))
  ⟨users, movies, cells⟩

/-- The genre-cache update loop of `load_data` (`recommendation3.py`,
lines 45-48): for every movie of `movie_info_local` (every entry carries a
`genres` key, so the guard at line 47 always holds), write its genre set
into the global `movie_genres_cache`, keeping any stale entries. -/
def cacheAfterLoad (mi : List (Int × MovieMeta)) (cache : List (Int × List String)) :
    List (Int × List String) :=
  mi.foldl (fun c p => alistInsert c p.1 (genreSet p.2.genres)) cache

/-- `load_data` (`recommendation3.py`, lines 18-50).  The feed argument is
the outcome of `fetch_data_from_db()`: `Except.error` stands for an
unreachable store (the SQL error propagates), `Except.ok rows` for the
fetched frame (the `rename`/`astype` normalisation is the identity here,
the columns already being integer-typed).  Returns the new
`(df, movie_info_local, rating_matrix_local)` plus the updated global
`movie_genres_cache`. -/
def load_data (feed : Except Unit (List Row)) (cache : List (Int × List String)) :
    Except Unit (List Row × List (Int × MovieMeta) × RatingMatrix × List (Int × List String)) :=
  match feed with
  | .error e => .error e
  | .ok rows =>
      let mi := buildMovieInfo rows
      let rm := buildMatrix rows
      .ok (rows, mi, rm, cacheAfterLoad mi cache)

/-! ### The trained model (`surprise.KNNBasic`, item-based) -/

/-- The trained-model object held in the global `algo`
(`recommendation3.py`, lines 89-90): a `KNNBasic(k=10, min_k=3,
sim_options={"name": "pearson", "user_based": False})` instance.
`trainedFrom` is the full trainset it was fitted on — the `df` rows passed
to `Dataset.load_from_df` (line 82), which is the feed snapshot of the
`load_data` call that produced it.  `simFn` is the item-item similarity
table `algo.sim` computed by `fit` (Pearson values, abstracted as
explained in the header).  `fitted` distinguishes a constructed-but-unfit
instance (line 89 runs before line 90's `fit`). -/
structure Algo where
  trainedFrom : List Row
  fitted : Bool
  simFn : Int → Int → ℚ
  k : Nat
  min_k : Nat

/-- `trainset.knows_user` / successful `to_inner_uid`: the user appears in
the fitted rows. -/
def Algo.knownUser (a : Algo) (u : Int) : Bool :=
  a.trainedFrom.any (fun r => decide (r.userId = u))

/-- `trainset.knows_item` / successful `to_inner_iid`: the item appears in
the fitted rows. -/
def Algo.knownItem (a : Algo) (i : Int) : Bool :=
  a.trainedFrom.any (fun r => decide (r.movieId = i))

/-- `trainset.ur[u]` under `user_based=False` switching: the items the user
rated, with their ratings, in trainset order. -/
def Algo.userRatings (a : Algo) (u : Int) : List (Int × ℚ) :=
  a.trainedFrom.filterMap (fun r =>
    if r.userId = u then some (r.movieId, r.rating) else none)

/-- `trainset.global_mean`, the library's `default_prediction`.  On an
empty trainset `numpy` yields NaN; the claims never evaluate that case, and
the embedding returns `0` there. -/
def Algo.globalMean (a : Algo) : ℚ :=
  let rs := a.trainedFrom.map (fun r => r.rating)
  if rs.isEmpty then 0 else rs.sum / rs.length

/-- Modelled from the spec: the Predictor of §4.4 — the `k` highest-similarity
neighbors among the items the user rated, retaining only those with
positive similarity.  The numeric estimator lives in the external
`surprise` library (`KNNBasic.estimate`), not in this repository's sources,
so it is embedded following the spec's algorithm description. -/
def Algo.qualifying (a : Algo) (u i : Int) : List (ℚ × ℚ) :=
  (nlargestBy a.k (fun t => t.1)
      ((a.userRatings u).map (fun p => (a.simFn i p.1, p.2)))).filter
    (fun t => decide (0 < t.1))

/-- Modelled from the spec: `predict` of §4.4 — the `surprise` library's
`KNNBasic.predict` (external to this repository's sources).  If the user or
item is unknown, or fewer than `min_k` qualifying neighbors remain (which
subsumes a zero total similarity weight: qualifying weights are strictly
positive, so a nonempty qualifying set has positive total weight), the
estimate falls back to the global mean (`default_prediction`); otherwise it
is the similarity-weighted average of the qualifying neighbor ratings.
Either way the result is clamped to the rating scale `[0.5, 5.0]`
configured by `Reader(rating_scale=(0.5, 5.0))` (`recommendation3.py`,
line 81). -/
def Algo.predict (a : Algo) (u i : Int) : ℚ :=
  let est :=
    if a.knownUser u && a.knownItem i then
      let qual := a.qualifying u i
      if qual.length < a.min_k then a.globalMean
      else (qual.map (fun t => t.1 * t.2)).sum / (qual.map (fun t => t.1)).sum
    else a.globalMean
  max (1/2) (min 5 est)

/-- `KNNBasic(k=10, min_k=3, sim_options=..., verbose=False)` built over the
feed snapshot `rows`; `simOf` abstracts the Pearson similarity table `fit`
computes (header note). -/
def mkKNN (simOf : List Row → Int → Int → ℚ) (rows : List Row) (fitted : Bool) : Algo :=
  ⟨rows, fitted, simOf rows, 10, 3⟩

/-! ### Module state and lifecycle (`recommendation3.py`, module globals,
`retrain_model`, `load_model`, and the import-time initialisation at
lines 271-272) -/

/-- The module's global mutable state (`recommendation3.py`, lines 11-15):
`algo`, `data`, `movie_info`, `rating_matrix`, `movie_genres_cache`. -/
structure PState where
  algo : Option Algo
  data : List Row
  movie_info : List (Int × MovieMeta)
  rating_matrix : RatingMatrix
  movie_genres_cache : List (Int × List String)

/-- The state at module import, before line 271 runs. -/
def initState : PState :=
  { algo := none, data := [], movie_info := [], rating_matrix := ⟨[], [], []⟩
    movie_genres_cache := [] }

/-- The environment one lifecycle operation runs against: the current feed
(`Except.error` = store unreachable), the `recommender.pkl` artifact
(`none` = absent, `some none` = present but unreadable — `pickle.load`
raises —, `some (some a)` = deserialises to `a`), and failure switches for
the training steps: `buildFails` covers a failure between `load_data`
returning and the `KNNBasic` construction at line 89 (e.g.
`Dataset.load_from_df` / `build_full_trainset`), `fitFails` a failure in
`algo.fit`, `dumpFails` a failure in `pickle.dump`. -/
structure Env where
  feed : Except Unit (List Row)
  disk : Option (Option Algo)
  buildFails : Bool
  fitFails : Bool
  dumpFails : Bool

/-- `retrain_model` (`recommendation3.py`, lines 54-96), as a transition on
the global state returning the state at exit together with the outcome
(`Except.error` = the Python exception propagating to the caller).  The
assignment order of the source is kept: the globals `data`, `movie_info`,
`rating_matrix` and `movie_genres_cache` are replaced as soon as
`load_data()` returns (line 79), and the global `algo` is replaced by the
new, not yet fitted `KNNBasic` at line 89, before `fit` runs at line 90. -/
def retrain_model (simOf : List Row → Int → Int → ℚ) (env : Env) (st : PState) :
    PState × Except Unit Algo :=
  match load_data env.feed st.movie_genres_cache with
  | .error e => (st, .error e)
  | .ok (rows, mi, rm, cache') =>
      let st1 : PState :=
        { st with data := rows, movie_info := mi, rating_matrix := rm
                  movie_genres_cache := cache' }
      if env.buildFails then (st1, .error ())
      else
        let st2 : PState := { st1 with algo := some (mkKNN simOf rows false) }
        if env.fitFails then (st2, .error ())
        else
          let fitted := mkKNN simOf rows true
          let st3 : PState := { st2 with algo := some fitted }
          if env.dumpFails then (st3, .error ())
          else (st3, .ok fitted)

/-- `load_model` (`recommendation3.py`, lines 100-133): if
`recommender.pkl` exists and loads, only the global `algo` is replaced by
the unpickled model — the rating matrix is not touched; otherwise (file
absent, or `pickle.load` raising) a full `retrain_model()` runs. -/
def load_model (simOf : List Row → Int → Int → ℚ) (env : Env) (st : PState) :
    PState × Except Unit Unit :=
  match env.disk with
  | some (some a) => ({ st with algo := some a }, .ok ())
  | _ =>
      let p := retrain_model simOf env st
      (p.1, p.2.map (fun _ => ()))

/-- Module import (`recommendation3.py`, lines 271-272):
`data, movie_info, rating_matrix = load_data()` then `load_model()`.  An
exception in either makes the import fail (`Except.error`). -/
def module_init (simOf : List Row → Int → Int → ℚ) (env : Env) :
    Except Unit PState :=
  match load_data env.feed initState.movie_genres_cache with
  | .error e => .error e
  | .ok (rows, mi, rm, cache') =>
      let st1 : PState :=
        { initState with data := rows, movie_info := mi, rating_matrix := rm
                         movie_genres_cache := cache' }
      match load_model simOf env st1 with
      | (st2, .ok _) => .ok st2
      | (_, .error e) => .error e

/-- The live similarity model and the live rating matrix come from the same
feed snapshot: the model was fitted on exactly the rows the matrix was
pivoted from (the global `data`). -/
def versionsMatch (st : PState) : Prop :=
  ∀ a, st.algo = some a → a.trainedFrom = st.data

/-! ### Recommendation generation (`get_recommendations`,
`recommendation3.py`, lines 137-269) -/

/-- One element of the returned recommendation list
(`recommendation3.py`, lines 261-267). -/
structure Recommendation where
  movieId : Int
  title : String
  genres : String
  predicted_rating : ℚ
  explanation : String
deriving DecidableEq, Repr

/-- Python `round(x, 2)` (line 265).  Mathlib's `round` is round-half-up
while CPython rounds bankers-style on binary floats; they differ only at
exact half-cent estimates and no claim depends on the tie direction. -/
def round2 (q : ℚ) : ℚ := (round (100 * q) : ℤ) / 100

/-- Python `f"{x:.1f}"` (lines 224, 230): one decimal digit.  All ratings
the program formats are integer multiples of `0.5`, for which `10 * q` is
exact and no float tie-breaking arises. -/
def fmt1 (q : ℚ) : String :=
  let n : Int := round (10 * q)
  toString (n / 10) ++ "." ++ toString (n % 10).natAbs

/-- `movie_info.get(similar_id, {}).get("title", "una película similar")`
(lines 222, 228). -/
def titleOf (mi : List (Int × MovieMeta)) (lid : Int) : String :=
  ((alistLookup mi lid).map (fun m => m.title)).getD "una película similar"

/-- `rated_movies[similar_id]` (lines 223, 229): the user's own rating of a
liked movie.  The pandas lookup cannot miss — every similar id comes from
`liked_movie_ids ⊆ rated_movies.index` — so the default is never consulted. -/
def ratingOf (rated : List (Int × ℚ)) (lid : Int) : ℚ :=
  ((rated.find? (fun p => decide (p.1 = lid))).map (fun p => p.2)).getD 0

/-- The per-neighbor fragment `f"{sim_title} (valoración: {sim_rating:.1f})"`
(lines 224, 230). -/
def simText (mi : List (Int × MovieMeta)) (rated : List (Int × ℚ)) (lid : Int) : String :=
  titleOf mi lid ++ " (valoración: " ++ fmt1 (ratingOf rated lid) ++ ")"

/-- The inner loop of explanation rule 1 (lines 205-213): over the user's
liked movie ids, keep those known to the trainset (`to_inner_iid` raising
skips the id) whose similarity to the candidate exceeds `0.1`, paired with
that similarity. -/
def candSims (a : Algo) (liked_ids : List Int) (mid : Int) : List (Int × ℚ) :=
  liked_ids.filterMap (fun lid =>
    if a.knownItem lid then
      if (1 : ℚ)/10 < a.simFn mid lid then some (lid, a.simFn mid lid) else none
    else none)

/-- Line 215: `best_similarities[movie_id] = heapq.nlargest(3, movie_sims,
key=lambda x: x[1])` — the up-to-3 liked movies most similar to the
candidate among those above the `0.1` threshold. -/
def rule1Selection (a : Algo) (liked_ids : List Int) (mid : Int) : List (Int × ℚ) :=
  nlargestBy 3 (fun p => p.2) (candSims a liked_ids mid)

/-- Line 257's generic fallback sentence. -/
def genericText : String :=
  "Esta película ha sido bien valorada por usuarios con gustos similares a los tuyos."

/-- Explanation rule 2, genre overlap (lines 234-252), together with the
only write to the global `movie_genres_cache` inside
`get_recommendations` (line 239): when the candidate's cached genre set is
missing or empty and the movie has metadata, the set is recomputed from the
metadata string and stored.  The counting dictionary `user_genre_ratings`
is consulted only for key membership, so the embedding keeps its key list
(nonempty genre tokens of the liked movies' cached sets, line 243-247).
Python iterates `movie_genres` (a set) in unspecified order; the embedding
keeps the token order of the stored list.  Returns the explanation (or `""`
when the rule does not apply) and the possibly-updated cache. -/
def genreStep (mi : List (Int × MovieMeta)) (cache : List (Int × List String))
    (liked_ids : List Int) (mid : Int) : String × List (Int × List String) :=
  let mg0 := (alistLookup cache mid).getD []
  let upd : List String × List (Int × List String) :=
    if mg0 = [] ∧ (alistLookup mi mid).isSome then
      let gstr := ((alistLookup mi mid).map (fun m => m.genres)).getD ""
      let mg := if gstr = "" then [] else genreSet gstr
      (mg, alistInsert cache mid mg)
    else (mg0, cache)
  let mg := upd.1
  let cache1 := upd.2
  if mg = [] then ("", cache1)
  else
    let likedGenres := liked_ids.flatMap (fun lid =>
      ((alistLookup cache1 lid).getD []).filter (fun g => decide (g ≠ "")))
    let matching := mg.filter (fun g => decide (g ∈ likedGenres) && decide (g ≠ ""))
    if matching = [] then ("", cache1)
    else
      ("Te recomendamos esta película porque contiene géneros que sueles disfrutar: "
         ++ pyJoin ", " matching ++ ".", cache1)

/-- Explanation synthesis for one surviving candidate (lines 199-257).  The
whole of rules 1 and 2 sits in one `try`: if the candidate itself is not in
the trainset (`to_inner_iid(movie_id)` raises, line 202) both rules are
skipped.  Rule 1 (lines 204-232): the top 3 of `candSims` by similarity via
`heapq.nlargest`; one qualifier gives the single-title sentence, several
give the enumeration joining all but the last with `", "` and the last
with `" y "`.  Rule 2 runs only when rule 1 selected nothing; line 256
substitutes the generic sentence whenever the explanation is still empty
(split into `explanationFor` below).
Returns the explanation and the resulting `movie_genres_cache`. -/
def explanationStep (a : Algo) (mi : List (Int × MovieMeta))
    (cache : List (Int × List String)) (rated : List (Int × ℚ))
    (liked_ids : List Int) (mid : Int) : String × List (Int × List String) :=
  if a.knownItem mid then
    match rule1Selection a liked_ids mid with
    | [] => genreStep mi cache liked_ids mid
    | [p] =>
        ("Te recomendamos esta película porque te gustó " ++ simText mi rated p.1
           ++ ".", cache)
    | ps =>
        let texts := ps.map (fun p => simText mi rated p.1)
        ("Te recomendamos esta película porque te gustaron películas similares como "
           ++ pyJoin ", " texts.dropLast ++ " y " ++ texts.getLastD ""
           ++ ".", cache)
  else ("", cache)

/-- Line 256's final default: an empty explanation becomes the generic
sentence; the cache is whatever the rules left. -/
def explanationFor (a : Algo) (mi : List (Int × MovieMeta))
    (cache : List (Int × List String)) (rated : List (Int × ℚ))
    (liked_ids : List Int) (mid : Int) : String × List (Int × List String) :=
  let step := explanationStep a mi cache rated liked_ids mid
  (if step.1 = "" then genericText else step.1, step.2)

/-- The result-construction loop over the top recommendations
(lines 197-267), threading the global `movie_genres_cache` through the
explanation synthesis.  (The source also memoises `best_similarities` per
candidate; the top list holds distinct movie ids, so the memo never hits
and is omitted.) -/
def recLoop (a : Algo) (mi : List (Int × MovieMeta)) (rated : List (Int × ℚ))
    (liked_ids : List Int) :
    List (Int × ℚ) → List (Int × List String) →
      List Recommendation × List (Int × List String)
  | [], c => ([], c)
  | (mid, pr) :: rest, c =>
      let ec := explanationFor a mi c rated liked_ids mid
      let info := (alistLookup mi mid).getD ⟨"Desconocido", ""⟩
      let tail := recLoop a mi rated liked_ids rest ec.2
      (⟨mid, info.title, info.genres, round2 pr, ec.1⟩ :: tail.1, tail.2)

/-- `get_recommendations(user_id, top_n)` (lines 137-269) as a transition on
the module state, returning the outcome (`Except.error` = the
`ValueError("Usuario no encontrado en el dataset de ratings")` of line 175,
or an exception propagating out of the lazy `load_model()` call of
lines 171-172) together with the state at exit.  The body follows the
source: rated/unrated split of the user's matrix row (lines 177-179), liked
= rated `≥ 3.5` (line 181), per-candidate prediction filtered by the `3.0`
floor (lines 184-191; `Algo.predict` is total, so the `except: continue`
never fires), `heapq.nlargest(top_n, ...)` selection (line 193), then the
explanation loop. -/
def get_recommendations (simOf : List Row → Int → Int → ℚ) (env : Env)
    (st : PState) (user_id : Int) (top_n : Nat) :
    Except Unit (List Recommendation) × PState :=
  let loaded : PState × Except Unit Unit :=
    match st.algo with
    | some _ => (st, .ok ())
    | none => load_model simOf env st
  match loaded with
  | (st1, .error e) => (.error e, st1)
  | (st1, .ok _) =>
      match st1.algo with
      | none => (.error (), st1)
      | some a =>
          if user_id ∈ st1.rating_matrix.users then
            let rated_movies := st1.rating_matrix.movies.filterMap (fun m =>
              (st1.rating_matrix.cell user_id m).map (fun v => (m, v)))
            let movies_no_valoradas := st1.rating_matrix.movies.filter (fun m =>
              (st1.rating_matrix.cell user_id m).isNone)
            let liked_ids := (rated_movies.filter
              (fun p => decide ((7 : ℚ)/2 ≤ p.2))).map (fun p => p.1)
            let predictions := movies_no_valoradas.filterMap (fun m =>
              let est := a.predict user_id m
              if (3 : ℚ) ≤ est then some (m, est) else none)
            let top := nlargestBy top_n (fun p => p.2) predictions
            let out := recLoop a st1.movie_info rated_movies liked_ids top
              st1.movie_genres_cache
            (.ok out.1, { st1 with movie_genres_cache := out.2 })
          else (.error (), st1)

/-- Decidable per-movie form of the cache invariant: the movie has a cached,
nonempty genre set. -/
def cacheOk (cache : List (Int × List String)) (mid : Int) : Bool :=
  match alistLookup cache mid with
  | some gs => !gs.isEmpty
  | none => false

/-- Every movie of the metadata index has a nonempty cached genre set.
`load_data` establishes this (lines 45-48 insert `genreSet` — never empty —
for every `movie_info_local` key), and it is exactly what makes the
line-239 cache write unreachable during recommendation. -/
def CacheInv (st : PState) : Prop :=
  ∀ p ∈ st.movie_info, cacheOk st.movie_genres_cache p.1 = true

/-! ### Spec-side renderings for the explanation claim (C7)

These follow the specification's words — "If one match: … If multiple:
enumerate titles and ratings, joining all but the last with commas and the
last with the conjunction" — and are compared against the source-side
construction in `explanationFor`. -/

/-- Enumerate fragments joining all but the last with commas and the last
with the conjunction word (the source speaks Spanish: `" y "`). -/
def specEnumerate : List String → String
  | [] => ""
  | [x] => x
  | [x, y] => x ++ " y " ++ y
  | x :: xs => x ++ ", " ++ specEnumerate xs

/-- The neighbor-similarity explanation the spec describes, applied to the
selected liked-movie ids: one qualifier names that title with the user's
rating; several enumerate all of them. -/
def specNeighborText (mi : List (Int × MovieMeta)) (rated : List (Int × ℚ)) :
    List Int → String
  | [l] =>
      "Te recomendamos esta película porque te gustó " ++ simText mi rated l ++ "."
  | ls =>
      "Te recomendamos esta película porque te gustaron películas similares como "
        ++ specEnumerate (ls.map (simText mi rated)) ++ "."

/-! ### Supporting lemmas -/

theorem append_ne_empty_left (s t : String) (hs : s ≠ "") : s ++ t ≠ "" := by
  intro h
  apply hs
  have hl := congrArg String.length h
  rw [String.length_append] at hl
  have h0 : ("" : String).length = 0 := rfl
  rw [h0] at hl
  have hs0 : s.length = 0 := by omega
  cases s with
  | mk data =>
    cases data with
    | nil => rfl
    | cons c cs => simp [String.length] at hs0

/-- The source's join of lines 226-232 — all but the last fragment with
`", "`, then `" y "` and the last — coincides with the spec-side
enumeration on two or more fragments. -/
theorem pyJoin_dropLast_getLastD (x y : String) (rest : List String) :
    pyJoin ", " ((x :: y :: rest).dropLast) ++ " y " ++ (x :: y :: rest).getLastD ""
      = specEnumerate (x :: y :: rest) := by
  induction rest generalizing x y with
  | nil => simp [pyJoin, specEnumerate, List.dropLast, List.getLastD]
  | cons z rest ih =>
    have hg : (x :: y :: z :: rest).getLastD "" = (y :: z :: rest).getLastD "" := by
      simp [List.getLastD_eq_getLast?, List.getLast?_cons_cons]
    have hj : pyJoin ", " ((x :: y :: z :: rest).dropLast)
        = x ++ ", " ++ pyJoin ", " ((y :: z :: rest).dropLast) := rfl
    have hs : specEnumerate (x :: y :: z :: rest)
        = x ++ ", " ++ specEnumerate (y :: z :: rest) := rfl
    rw [hj, hg, hs, ← ih y z]
    simp [String.append_assoc]

/-- Rounding to two decimals preserves the `3.0` quality floor. -/
theorem round2_ge_three (q : ℚ) (h : (3 : ℚ) ≤ q) : (3 : ℚ) ≤ round2 q := by
  unfold round2
  have h1 : (300 : ℤ) ≤ round (100 * q) := by
    rw [round_eq, Int.le_floor]
    push_cast
    linarith
  have h2 : (300 : ℚ) ≤ ((round (100 * q) : ℤ) : ℚ) := by exact_mod_cast h1
  linarith

theorem recLoop_fst_length (a : Algo) (mi : List (Int × MovieMeta))
    (rated : List (Int × ℚ)) (liked_ids : List Int) (top : List (Int × ℚ))
    (c : List (Int × List String)) :
    (recLoop a mi rated liked_ids top c).1.length = top.length := by
  induction top generalizing c with
  | nil => rfl
  | cons hd rest ih =>
    obtain ⟨mid, pr⟩ := hd
    simp only [recLoop, List.length_cons]
    rw [ih]

theorem recLoop_fst_mem (a : Algo) (mi : List (Int × MovieMeta))
    (rated : List (Int × ℚ)) (liked_ids : List Int) (top : List (Int × ℚ))
    (c : List (Int × List String)) (r : Recommendation)
    (hr : r ∈ (recLoop a mi rated liked_ids top c).1) :
    ∃ x ∈ top, r.predicted_rating = round2 x.2 := by
  induction top generalizing c with
  | nil => cases hr
  | cons hd rest ih =>
    obtain ⟨mid, pr⟩ := hd
    simp only [recLoop, List.mem_cons] at hr
    rcases hr with rfl | hr
    · exact ⟨(mid, pr), List.mem_cons_self _ _, rfl⟩
    · obtain ⟨x, hx, hxe⟩ := ih _ hr
      exact ⟨x, List.mem_cons_of_mem _ hx, hxe⟩

/-- Under the cache invariant, the genre-overlap rule never writes: the
candidate either has no metadata (so the `movie_id in movie_info` guard
fails) or has a nonempty cached genre set (so `not movie_genres` fails). -/
theorem genreStep_snd (mi : List (Int × MovieMeta)) (cache : List (Int × List String))
    (liked_ids : List Int) (mid : Int)
    (h : ∀ p ∈ mi, cacheOk cache p.1 = true) :
    (genreStep mi cache liked_ids mid).2 = cache := by
  have hcond : ¬ ((alistLookup cache mid).getD [] = [] ∧
      (alistLookup mi mid).isSome = true) := by
    rintro ⟨hmg, hsome⟩
    rcases Option.isSome_iff_exists.mp hsome with ⟨meta, hmeta⟩
    unfold alistLookup at hmeta
    rcases Option.map_eq_some'.mp hmeta with ⟨p0, hfind, hval⟩
    have hp0 : p0 ∈ mi := List.mem_of_find?_eq_some hfind
    have hkey : p0.1 = mid := by
      have hkeyb := List.find?_some hfind
      simpa using hkeyb
    have hok := h p0 hp0
    rw [hkey] at hok
    unfold cacheOk at hok
    cases hlook : alistLookup cache mid with
    | none => rw [hlook] at hok; cases hok
    | some gs =>
        rw [hlook] at hok
        rw [hlook] at hmg
        simp only [Option.getD_some] at hmg
        rw [hmg] at hok
        simp [List.isEmpty] at hok
  simp only [genreStep]
  rw [if_neg hcond]
  dsimp only
  split
  · rfl
  · split <;> rfl

/-- Under the cache invariant, explanation synthesis returns the cache it
was given. -/
theorem explanationFor_snd (a : Algo) (mi : List (Int × MovieMeta))
    (cache : List (Int × List String)) (rated : List (Int × ℚ))
    (liked_ids : List Int) (mid : Int)
    (h : ∀ p ∈ mi, cacheOk cache p.1 = true) :
    (explanationFor a mi cache rated liked_ids mid).2 = cache := by
  show (explanationStep a mi cache rated liked_ids mid).2 = cache
  unfold explanationStep
  by_cases hk : a.knownItem mid = true
  · rw [if_pos hk]
    cases hsel : rule1Selection a liked_ids mid with
    | nil => exact genreStep_snd mi cache liked_ids mid h
    | cons p ps => cases ps <;> rfl
  · rw [if_neg hk]

theorem recLoop_snd (a : Algo) (mi : List (Int × MovieMeta))
    (rated : List (Int × ℚ)) (liked_ids : List Int) (top : List (Int × ℚ))
    (c : List (Int × List String))
    (h : ∀ p ∈ mi, cacheOk c p.1 = true) :
    (recLoop a mi rated liked_ids top c).2 = c := by
  induction top generalizing c with
  | nil => rfl
  | cons hd rest ih =>
    obtain ⟨mid, pr⟩ := hd
    simp only [recLoop]
    have hec := explanationFor_snd a mi c rated liked_ids mid h
    rw [hec, ih c h]

/-- Shape of a successful retrain: the feed was fetched, and the final state
holds the freshly fitted model together with the dataset artifacts of the
same feed snapshot. -/
theorem retrain_model_ok (simOf : List Row → Int → Int → ℚ) (env : Env)
    (st st' : PState) (alg : Algo)
    (h : retrain_model simOf env st = (st', .ok alg)) :
    ∃ rows, env.feed = .ok rows ∧ alg = mkKNN simOf rows true ∧
      st' = { algo := some alg, data := rows, movie_info := buildMovieInfo rows,
              rating_matrix := buildMatrix rows,
              movie_genres_cache :=
                cacheAfterLoad (buildMovieInfo rows) st.movie_genres_cache } := by
  unfold retrain_model load_data at h
  cases hfeed : env.feed with
  | error e =>
      rw [hfeed] at h
      exact absurd (congrArg Prod.snd h) (by simp)
  | ok rows =>
      rw [hfeed] at h
      dsimp only at h
      by_cases hb : env.buildFails = true
      · rw [if_pos hb] at h
        exact absurd (congrArg Prod.snd h) (by simp)
      · rw [if_neg hb] at h
        by_cases hf : env.fitFails = true
        · rw [if_pos hf] at h
          exact absurd (congrArg Prod.snd h) (by simp)
        · rw [if_neg hf] at h
          by_cases hd : env.dumpFails = true
          · rw [if_pos hd] at h
            exact absurd (congrArg Prod.snd h) (by simp)
          · rw [if_neg hd] at h
            rw [Prod.mk.injEq] at h
            obtain ⟨hst, hal⟩ := h
            simp only [Except.ok.injEq] at hal
            refine ⟨rows, rfl, hal.symm, ?_⟩
            rw [← hst, ← hal]

/-- A state fresh out of a successful retrain pairs matrix and model from
the same snapshot. -/
theorem versionsMatch_of_retrain_ok (simOf : List Row → Int → Int → ℚ)
    (env : Env) (st st' : PState) (alg : Algo)
    (h : retrain_model simOf env st = (st', .ok alg)) : versionsMatch st' := by
  obtain ⟨rows, _, hal, hshape⟩ := retrain_model_ok simOf env st st' alg h
  intro a ha
  rw [hshape] at ha ⊢
  simp only [Option.some.injEq] at ha
  rw [← ha, hal]
  rfl

/-- When the artifact is absent or unreadable, `load_model` retrains, so a
successful call leaves a version-consistent state. -/
theorem load_model_ok_versions (simOf : List Row → Int → Int → ℚ) (env : Env)
    (st st' : PState) (u : Unit) (hdisk : ∀ a0, env.disk ≠ some (some a0))
    (h : load_model simOf env st = (st', .ok u)) : versionsMatch st' := by
  unfold load_model at h
  cases hdiskv : env.disk with
  | some o =>
      cases o with
      | some a0 => exact absurd hdiskv (hdisk a0)
      | none =>
          rw [hdiskv] at h
          dsimp only at h
          rcases hretr : (retrain_model simOf env st) with ⟨st2, r⟩
          rw [hretr] at h
          cases r with
          | error e => exact absurd (congrArg Prod.snd h) (by simp [Except.map])
          | ok alg =>
              have hst := congrArg Prod.fst h
              dsimp only at hst
              rw [← hst]
              exact versionsMatch_of_retrain_ok simOf env st st2 alg hretr
  | none =>
      rw [hdiskv] at h
      dsimp only at h
      rcases hretr : (retrain_model simOf env st) with ⟨st2, r⟩
      rw [hretr] at h
      cases r with
      | error e => exact absurd (congrArg Prod.snd h) (by simp [Except.map])
      | ok alg =>
          have hst := congrArg Prod.fst h
          dsimp only at hst
          rw [← hst]
          exact versionsMatch_of_retrain_ok simOf env st st2 alg hretr

/-- When no readable artifact is on disk, a successful module import went
through the in-process retrain, so the imported state is version-consistent. -/
theorem module_init_ok_versions (simOf : List Row → Int → Int → ℚ) (env : Env)
    (st' : PState) (hdisk : ∀ a0, env.disk ≠ some (some a0))
    (h : module_init simOf env = .ok st') : versionsMatch st' := by
  unfold module_init at h
  cases hld : (load_data env.feed initState.movie_genres_cache) with
  | error e => rw [hld] at h; cases h
  | ok tup =>
      obtain ⟨rows, mi, rm, cache'⟩ := tup
      rw [hld] at h
      dsimp only at h
      have hlm0 : ∃ p, load_model simOf env
          { initState with data := rows, movie_info := mi, rating_matrix := rm
                           movie_genres_cache := cache' } = p := ⟨_, rfl⟩
      obtain ⟨⟨st2, r⟩, hlm⟩ := hlm0
      rw [hlm] at h
      cases r with
      | error e => cases h
      | ok u =>
          simp only [Except.ok.injEq] at h
          rw [← h]
          exact load_model_ok_versions simOf env _ st2 u hdisk hlm

/-! ### Concrete fixtures for witnesses and counterexamples -/

/-- A degenerate similarity table (all zeroes) used to instantiate the
abstract trainer output on concrete runs. -/
def sim0 : List Row → Int → Int → ℚ := fun _ _ _ => 0

/-- A one-row feed: user 1 rated movie 7 with 4.0, title `T`, genre `G`. -/
def rowA : Row := ⟨1, 7, 4, "T", "G"⟩

/-- The current feed snapshot in the stale-artifact scenario. -/
def rowsC1 : List Row := [rowA]

/-- A model pickled in an earlier run, fitted on an older (empty) snapshot. -/
def oldAlgo : Algo := mkKNN sim0 [] true

/-- Import-time environment: the feed now returns `rowsC1`, while
`recommender.pkl` still holds `oldAlgo`. -/
def envC1 : Env := ⟨.ok rowsC1, some (some oldAlgo), false, false, false⟩

/-- Import-time environment with no persisted artifact. -/
def envNoDisk : Env := ⟨.ok rowsC1, none, false, false, false⟩

/-- The freshly fitted model over `rowsC1`. -/
def algNew : Algo := mkKNN sim0 rowsC1 true

/-- The state a successful in-process retrain over `rowsC1` produces from
the initial state. -/
def stNew : PState :=
  { algo := some algNew, data := rowsC1, movie_info := buildMovieInfo rowsC1,
    rating_matrix := buildMatrix rowsC1,
    movie_genres_cache := cacheAfterLoad (buildMovieInfo rowsC1) [] }

/-- Environment whose fit step fails after the (now empty) feed loads. -/
def envC2 : Env := ⟨.ok [], none, false, true, false⟩

/-- Environment whose feed fetch fails. -/
def envErrFeed : Env := ⟨.error (), none, false, false, false⟩

/-- Environment with an empty feed and no failures. -/
def envEmptyOk : Env := ⟨.ok [], none, false, false, false⟩

/-- The module state after retraining on an empty feed. -/
def stEmpty : PState := (retrain_model sim0 envEmptyOk initState).1

/-- C1 (counterexample): the claim fails on the code.  `load_model` only
unpickles `algo` (`recommendation3.py`, lines 120-125) while line 271 built
the rating matrix from the current feed, so module import against a stale
`recommender.pkl` serves `oldAlgo` — fitted on the empty snapshot — next to
a matrix pivoted from `rowsC1`: the two come from different snapshots. -/
theorem C1_counterexample :
    (module_init sim0 envC1).map (fun st => (st.data, st.algo.map Algo.trainedFrom))
        = .ok (rowsC1, some ([] : List Row)) ∧
      rowsC1 ≠ ([] : List Row) :=
  ⟨rfl, by decide⟩

/-- C1 (amended): the rating matrix and the similarity model come from the
same feed snapshot whenever the live model was trained in-process — after a
successful `retrain_model`, and after a module import that found no
readable `recommender.pkl`.  Restoring a persisted artifact gives no such
guarantee (see the counterexample). -/
theorem C1_same_version_when_trained_in_process
    (simOf : List Row → Int → Int → ℚ) (env : Env) (st : PState) :
    (∀ st' alg, retrain_model simOf env st = (st', .ok alg) → versionsMatch st') ∧
    (∀ st', (∀ a0, env.disk ≠ some (some a0)) → module_init simOf env = .ok st' →
      versionsMatch st') :=
  ⟨fun st' alg h => versionsMatch_of_retrain_ok simOf env st st' alg h,
   fun st' hdisk h => module_init_ok_versions simOf env st' hdisk h⟩

/-- C1 witness: a concrete successful retrain, whose resulting state the
theorem certifies as version-consistent. -/
theorem C1_witness :
    retrain_model sim0 envNoDisk initState = (stNew, .ok algNew) ∧
      versionsMatch stNew :=
  ⟨rfl, (C1_same_version_when_trained_in_process sim0 envNoDisk initState).1
    stNew algNew rfl⟩

/-- C2 (counterexample): retrain is not atomic.  With the previous model
`stNew` live, a retrain whose `fit` raises (`recommendation3.py`, line 90)
reports the failure but has already replaced the globals at lines 79 and 89:
the new (empty-feed) dataset is installed and `algo` holds the new, unfit
`KNNBasic` instead of the previous fitted model. -/
theorem C2_counterexample :
    (retrain_model sim0 envC2 stNew).2 = .error () ∧
    (retrain_model sim0 envC2 stNew).1.data ≠ stNew.data ∧
    (retrain_model sim0 envC2 stNew).1.algo.map Algo.fitted = some false ∧
    stNew.algo.map Algo.fitted = some true :=
  ⟨rfl, by decide, rfl, rfl⟩

/-- C2 (amended): only a feed-fetch failure is atomic — it leaves the whole
previous state serving.  A failure after `load_data` returns leaves a
partial overwrite (counterexample above).  On success the state is the
fully built new model: fitted algo, matrix, metadata and cache all from the
fresh snapshot. -/
theorem C2_swap_discipline (simOf : List Row → Int → Int → ℚ) (env : Env)
    (st : PState) :
    (∀ e, env.feed = .error e → retrain_model simOf env st = (st, .error e)) ∧
    (∀ rows alg, env.feed = .ok rows → (retrain_model simOf env st).2 = .ok alg →
      alg = mkKNN simOf rows true ∧
      (retrain_model simOf env st).1 =
        { algo := some alg, data := rows, movie_info := buildMovieInfo rows
          rating_matrix := buildMatrix rows
          movie_genres_cache :=
            cacheAfterLoad (buildMovieInfo rows) st.movie_genres_cache }) := by
  constructor
  · intro e he
    unfold retrain_model load_data
    rw [he]
  · intro rows alg hfeed h2
    have hpair : retrain_model simOf env st = ((retrain_model simOf env st).1, .ok alg) := by
      rw [← h2]
    obtain ⟨rows', hfeed', hal, hshape⟩ :=
      retrain_model_ok simOf env st (retrain_model simOf env st).1 alg hpair
    rw [hfeed] at hfeed'
    obtain rfl : rows = rows' := by
      simpa using hfeed'
    exact ⟨hal, hshape⟩

/-- C2 witness: a fetch failure leaves the previous state untouched. -/
theorem C2_witness :
    envErrFeed.feed = .error () ∧
      retrain_model sim0 envErrFeed stNew = (stNew, .error ()) :=
  ⟨rfl, (C2_swap_discipline sim0 envErrFeed stNew).1 () rfl⟩

/-- C9 (counterexample): the claim fails on the code — an empty feed is not
an error.  `load_data` has no emptiness check (`recommendation3.py`,
lines 18-50): on an empty frame it returns empty artifacts successfully
instead of failing with a `DataUnavailable` error. -/
theorem C9_counterexample :
    load_data (.ok ([] : List Row)) [] = .ok ([], [], ⟨[], [], []⟩, []) := rfl

/-- C9 (amended): an unreachable feed propagates the fetch error; an empty
feed succeeds with an empty rating matrix, and that empty matrix is a valid
value downstream — retraining on it completes, and recommendation requests
against the resulting state fail with the controlled user-not-found error
(every user is outside the empty matrix) while leaving the state intact,
rather than crashing. -/
theorem C9_empty_feed (u : Int) (topn : Nat)
    (cache : List (Int × List String)) :
    load_data (.error ()) cache = .error () ∧
    load_data (.ok ([] : List Row)) [] = .ok ([], [], ⟨[], [], []⟩, []) ∧
    (retrain_model sim0 envEmptyOk initState).2 = .ok (mkKNN sim0 [] true) ∧
    stEmpty.rating_matrix = ⟨[], [], []⟩ ∧
    (get_recommendations sim0 envEmptyOk stEmpty u topn).1 = .error () ∧
    (get_recommendations sim0 envEmptyOk stEmpty u topn).2 = stEmpty :=
  ⟨rfl, rfl, rfl, rfl, rfl, rfl⟩

/-- The store and serving state for the known-user-with-zero-ratings
scenario: user 4 exists in the `User` table but has no rating rows. -/
def dbC4 : DB := ⟨[1, 4], [(7, "T")], ["G"], [(7, "G")], [(1, 7, 4)]⟩

/-- The feed `fetch_data_from_db` returns for `dbC4`. -/
def feedC4 : List Row := fetch_data_from_db dbC4

/-- The serving state after training on `feedC4`. -/
def stC4 : PState :=
  { algo := some (mkKNN sim0 feedC4 true), data := feedC4
    movie_info := buildMovieInfo feedC4, rating_matrix := buildMatrix feedC4
    movie_genres_cache := cacheAfterLoad (buildMovieInfo feedC4) [] }

/-- C4 (counterexample): the claim fails on the code.  The pivot-table index
(`recommendation3.py`, line 43) holds exactly the users with at least one
feed row, not the store's user set: user 4 is known to the store
(`dbC4.users`) but has no ratings, is absent from the matrix index, and
`get_recommendations` rejects it with the user-not-found error — it is not
distinguished from an unknown user. -/
theorem C4_counterexample :
    (4 : Int) ∈ dbC4.users ∧
    (∀ t ∈ dbC4.ratings, t.1 ≠ 4) ∧
    (4 : Int) ∉ stC4.rating_matrix.users ∧
    (get_recommendations sim0 envEmptyOk stC4 4 5).1 = .error () :=
  ⟨by decide, by decide, by decide, rfl⟩

/-- C4 (amended): with the model loaded, `get_recommendations` fails with
the user-not-found error exactly when the user is absent from the rating
matrix index — and that index is exactly the set of users owning at least
one feed row (so a stored user with zero ratings is also rejected; the
HTTP layer of `main.py`, lines 140-162, serves such users non-personalized
recommendations without calling `get_recommendations`). -/
theorem C4_user_gate (simOf : List Row → Int → Int → ℚ) (env : Env)
    (st : PState) (a : Algo) (ha : st.algo = some a) (user : Int) (topn : Nat) :
    ((get_recommendations simOf env st user topn).1.isOk = false ↔
        user ∉ st.rating_matrix.users) ∧
    (∀ rows u, u ∈ (buildMatrix rows).users ↔ ∃ r ∈ rows, r.userId = u) := by
  constructor
  · unfold get_recommendations
    dsimp only
    split
    · rename_i st1 e heq
      rw [ha] at heq
      dsimp only at heq
      exact absurd (congrArg Prod.snd heq) (by simp)
    · rename_i st1 u0 heq
      rw [ha] at heq
      dsimp only at heq
      have hs1 : st = st1 := congrArg Prod.fst heq
      subst hs1
      split
      · rename_i heq2
        rw [heq2] at ha
        cases ha
      · rename_i a3 heq2
        by_cases hu : user ∈ st.rating_matrix.users
        · rw [if_pos hu]
          simp [Except.isOk, Except.toBool, hu]
        · rw [if_neg hu]
          simp [Except.isOk, Except.toBool, hu]
  · intro rows u
    unfold buildMatrix
    dsimp only
    rw [mem_sortAsc, List.mem_dedup, List.mem_map]

/-- C4 witness: the gate evaluated on a concrete loaded state. -/
theorem C4_witness :
    stC4.algo = some (mkKNN sim0 feedC4 true) ∧
    (((get_recommendations sim0 envEmptyOk stC4 1 5).1.isOk = false ↔
        (1 : Int) ∉ stC4.rating_matrix.users) ∧
      (∀ rows u, u ∈ (buildMatrix rows).users ↔ ∃ r ∈ rows, r.userId = u)) :=
  ⟨rfl, C4_user_gate sim0 envEmptyOk stC4 (mkKNN sim0 feedC4 true) rfl 1 5⟩

/-- C3: when the user is in the model and fewer than `min_k` qualifying
neighbors remain (which subsumes the zero-total-weight case, since every
qualifying weight is strictly positive), `predict` returns the fallback
estimate — the clamped global mean — instead of raising: the embedded
`predict` is total and the `PredictionImpossible` path yields
`default_prediction`. -/
theorem C3_fallback_on_min_k (a : Algo) (u i : Int)
    (hu : a.knownUser u = true)
    (hq : (a.qualifying u i).length < a.min_k) :
    a.predict u i = max (1/2) (min 5 a.globalMean) := by
  unfold Algo.predict
  cases hi : a.knownItem i
  · simp [hu, hi]
  · simp [hu, hi, hq]

/-- C3 witness: user 1 is in `algNew`'s trainset, the all-zero similarity
table leaves no qualifying neighbor for item 9, and the prediction is the
clamped global mean. -/
theorem C3_witness :
    algNew.knownUser 1 = true ∧
    (algNew.qualifying 1 9).length < algNew.min_k ∧
    algNew.predict 1 9 = max (1/2) (min 5 algNew.globalMean) :=
  ⟨by decide, by decide, C3_fallback_on_min_k algNew 1 9 (by decide) (by decide)⟩

/-- C6: every estimate `predict` returns is clamped into the configured
rating scale `[0.5, 5.0]` before being returned. -/
theorem C6_estimate_clamped (a : Algo) (u i : Int) :
    (1 : ℚ)/2 ≤ a.predict u i ∧ a.predict u i ≤ 5 := by
  unfold Algo.predict
  refine ⟨le_max_left _ _, ?_⟩
  exact max_le (by norm_num) (min_le_left _ _)

/-- C10: a rating whose movie has no `Movie_Genre` association rows is
dropped entirely by the feed's inner joins: no feed row carries that movie,
the movie never enters the rating matrix, and the bulk loader indeed
creates no association for a movie whose only CSV genre token is
`'(no genres listed)'`. -/
theorem C10_genreless_rating_dropped (db : DB) (u m : Int) (v : ℚ)
    (_hr : (u, m, v) ∈ db.ratings)
    (hnil : db.movieGenres.filter (fun p => decide (p.1 = m)) = []) :
    (∀ row ∈ fetch_data_from_db db, row.movieId ≠ m) ∧
    m ∉ (buildMatrix (fetch_data_from_db db)).movies ∧
    (∀ rows : List Row, (∀ r ∈ rows, r.movieId = m → r.genres = "(no genres listed)") →
      ∀ g, (m, g) ∉ movie_genre_pairs rows) := by
  have hdrop : ∀ row ∈ fetch_data_from_db db, row.movieId ≠ m := by
    intro row hrow hm
    unfold fetch_data_from_db at hrow
    rw [List.mem_filterMap] at hrow
    obtain ⟨t, ht, hsome⟩ := hrow
    cases hfind : db.movies.find? (fun mv => decide (mv.1 = t.2.1)) with
    | none => rw [hfind] at hsome; cases hsome
    | some mv =>
        rw [hfind] at hsome
        dsimp only at hsome
        by_cases hgs : (genreNamesOf db t.2.1).isEmpty = true
        · rw [if_pos hgs] at hsome
          cases hsome
        · rw [if_neg hgs] at hsome
          have hrow' := Option.some.inj hsome
          have hmid : t.2.1 = m := by
            rw [← hm, ← hrow']
          apply hgs
          unfold genreNamesOf
          rw [hmid, hnil]
          rfl
  refine ⟨hdrop, ?_, ?_⟩
  · intro hmem
    unfold buildMatrix at hmem
    dsimp only at hmem
    rw [mem_sortAsc, List.mem_dedup, List.mem_map] at hmem
    obtain ⟨row, hrow, hmid⟩ := hmem
    exact hdrop row hrow hmid
  · intro rows hall g hmem
    unfold movie_genre_pairs at hmem
    rw [List.mem_flatMap] at hmem
    obtain ⟨r, hrm, hin⟩ := hmem
    rw [List.mem_filterMap] at hin
    obtain ⟨g0, hg0, heq⟩ := hin
    by_cases htok : g0 = "(no genres listed)"
    · rw [if_pos htok] at heq
      cases heq
    · rw [if_neg htok] at heq
      have h2 := Option.some.inj heq
      have hrm2 : r.movieId = m := congrArg Prod.fst h2
      have hgen := hall r hrm hrm2
      rw [hgen] at hg0
      have hsp : splitPipe "(no genres listed)" = ["(no genres listed)"] := by decide
      rw [hsp] at hg0
      exact htok (List.mem_singleton.mp hg0)

/-- Store for the C10 witness: movie 7 has a rating but no genre rows. -/
def dbC10 : DB := ⟨[1], [(7, "T")], ["G"], [], [(1, 7, 4)]⟩

/-- C10 witness: the hypotheses hold of `dbC10` and the theorem's
conclusions follow there. -/
theorem C10_witness :
    ((1, 7, (4 : ℚ)) ∈ dbC10.ratings ∧
      dbC10.movieGenres.filter (fun p => decide (p.1 = 7)) = []) ∧
    ((∀ row ∈ fetch_data_from_db dbC10, row.movieId ≠ 7) ∧
      (7 : Int) ∉ (buildMatrix (fetch_data_from_db dbC10)).movies ∧
      (∀ rows : List Row,
        (∀ r ∈ rows, r.movieId = 7 → r.genres = "(no genres listed)") →
        ∀ g, ((7 : Int), g) ∉ movie_genre_pairs rows)) :=
  ⟨⟨by decide, by decide⟩,
    C10_genreless_rating_dropped dbC10 1 7 4 (by decide) (by decide)⟩

/-- C5: with the model loaded and the user in the matrix, recommendation
returns successfully; `top_n = 0` yields the empty list, at most `top_n`
items are returned, and every returned item carries a predicted rating of
at least `3.0` (candidates below the floor were discarded at line 188
before the `heapq.nlargest` selection, and two-decimal rounding preserves
the floor). -/
theorem C5_quality_floor (simOf : List Row → Int → Int → ℚ) (env : Env)
    (st : PState) (a : Algo) (ha : st.algo = some a) (user : Int) (topn : Nat)
    (hu : user ∈ st.rating_matrix.users) :
    ∃ recs, (get_recommendations simOf env st user topn).1 = .ok recs ∧
      (topn = 0 → recs = []) ∧ recs.length ≤ topn ∧
      ∀ r ∈ recs, (3 : ℚ) ≤ r.predicted_rating := by
  unfold get_recommendations
  dsimp only
  split
  · rename_i st1 e heq
    rw [ha] at heq
    dsimp only at heq
    exact absurd (congrArg Prod.snd heq) (by simp)
  · rename_i st1 u0 heq
    rw [ha] at heq
    dsimp only at heq
    have hs1 : st = st1 := congrArg Prod.fst heq
    subst hs1
    split
    · rename_i heq2
      rw [heq2] at ha
      cases ha
    · rename_i a3 heq2
      rw [if_pos hu]
      dsimp only
      refine ⟨_, rfl, ?_, ?_, ?_⟩
      · intro h0
        subst h0
        rw [nlargestBy_zero]
        rfl
      · rw [recLoop_fst_length]
        exact length_nlargestBy _ _ _
      · intro r hr
        obtain ⟨x, hx, hxe⟩ := recLoop_fst_mem _ _ _ _ _ _ r hr
        have hx2 := mem_nlargestBy _ _ _ _ hx
        rw [List.mem_filterMap] at hx2
        obtain ⟨m, hm, hsome⟩ := hx2
        by_cases hpred : (3 : ℚ) ≤ a3.predict user m
        · rw [if_pos hpred] at hsome
          have hxval := Option.some.inj hsome
          rw [hxe, ← hxval]
          exact round2_ge_three _ hpred
        · rw [if_neg hpred] at hsome
          cases hsome

/-- C5 witness: a concrete loaded state on which the guarantees hold. -/
theorem C5_witness :
    stNew.algo = some algNew ∧ (1 : Int) ∈ stNew.rating_matrix.users ∧
    (∃ recs, (get_recommendations sim0 envEmptyOk stNew 1 5).1 = .ok recs ∧
      (5 = 0 → recs = []) ∧ recs.length ≤ 5 ∧
      ∀ r ∈ recs, (3 : ℚ) ≤ r.predicted_rating) :=
  ⟨rfl, by decide,
    C5_quality_floor sim0 envEmptyOk stNew algNew rfl 1 5 (by decide)⟩

/-- C8: with the model loaded and the cache invariant (every movie of the
metadata index has a nonempty cached genre set — which `load_data`
establishes), `get_recommendations` leaves the module state exactly as it
was: the model, matrix and metadata fields are never written, and the
line-239 cache write is unreachable. -/
theorem C8_read_only (simOf : List Row → Int → Int → ℚ) (env : Env)
    (st : PState) (a : Algo) (ha : st.algo = some a) (hinv : CacheInv st)
    (user : Int) (topn : Nat) :
    (get_recommendations simOf env st user topn).2 = st := by
  unfold get_recommendations
  dsimp only
  split
  · rename_i st1 e heq
    rw [ha] at heq
    dsimp only at heq
    exact absurd (congrArg Prod.snd heq) (by simp)
  · rename_i st1 u0 heq
    rw [ha] at heq
    dsimp only at heq
    have hs1 : st = st1 := congrArg Prod.fst heq
    subst hs1
    split
    · rfl
    · rename_i a3 heq2
      by_cases hu : user ∈ st.rating_matrix.users
      · rw [if_pos hu]
        dsimp only
        rw [recLoop_snd _ _ _ _ _ _ hinv]
      · rw [if_neg hu]

/-- C8 witness: the frame property evaluated on a concrete loaded state
satisfying the invariant. -/
theorem C8_witness :
    stNew.algo = some algNew ∧ CacheInv stNew ∧
    (get_recommendations sim0 envEmptyOk stNew 1 5).2 = stNew :=
  ⟨rfl, by unfold CacheInv; decide,
    C8_read_only sim0 envEmptyOk stNew algNew rfl (by unfold CacheInv; decide) 1 5⟩

/-- On a nonempty rule-1 selection, the code's sentence construction
matches the spec-side rendering and is nonempty (so the generic default of
line 256 does not replace it). -/
theorem explanationStep_spec (a : Algo) (mi : List (Int × MovieMeta))
    (cache : List (Int × List String)) (rated : List (Int × ℚ))
    (liked_ids : List Int) (mid : Int) (hmid : a.knownItem mid = true)
    (p : Int × ℚ) (ps : List (Int × ℚ))
    (hsel : rule1Selection a liked_ids mid = p :: ps) :
    (explanationStep a mi cache rated liked_ids mid).1 =
      specNeighborText mi rated ((p :: ps).map (fun q => q.1)) ∧
    (explanationStep a mi cache rated liked_ids mid).1 ≠ "" := by
  unfold explanationStep
  rw [if_pos hmid, hsel]
  cases ps with
  | nil =>
      refine ⟨rfl, ?_⟩
      exact append_ne_empty_left _ _ (append_ne_empty_left _ _ (by decide))
  | cons q qs =>
      constructor
      · dsimp only
        simp only [specNeighborText, List.map_cons, List.map_map, Function.comp]
        rw [← pyJoin_dropLast_getLastD]
        simp [String.append_assoc, Function.comp_def]
      · exact append_ne_empty_left _ _ (append_ne_empty_left _ _
          (append_ne_empty_left _ _ (append_ne_empty_left _ _ (by decide))))

/-- C7: for a candidate known to the trainset, the explanation rule selects
among the user's liked movies at most 3 —the ones of highest similarity to
the candidate— keeping only those strictly above the `0.1` threshold; when
the selection is nonempty the rendered explanation is exactly the
spec-side sentence: one qualifier names that title with the user's rating,
several enumerate all of them joining all but the last with commas and the
last with the conjunction. -/
theorem C7_neighbor_rule (a : Algo) (mi : List (Int × MovieMeta))
    (cache : List (Int × List String)) (rated : List (Int × ℚ))
    (liked_ids : List Int) (mid : Int) (hmid : a.knownItem mid = true) :
    (rule1Selection a liked_ids mid).length ≤ 3 ∧
    (∀ p ∈ rule1Selection a liked_ids mid,
      p.1 ∈ liked_ids ∧ p.2 = a.simFn mid p.1 ∧ (1 : ℚ)/10 < p.2) ∧
    (∃ rest, (candSims a liked_ids mid).Perm (rule1Selection a liked_ids mid ++ rest) ∧
      ∀ p ∈ rule1Selection a liked_ids mid, ∀ q ∈ rest, q.2 ≤ p.2) ∧
    (rule1Selection a liked_ids mid ≠ [] →
      (explanationFor a mi cache rated liked_ids mid).1 =
        specNeighborText mi rated ((rule1Selection a liked_ids mid).map (fun q => q.1))) := by
  refine ⟨length_nlargestBy _ _ _, ?_, nlargestBy_split _ _ _, ?_⟩
  · intro p hp
    have hp2 : p ∈ candSims a liked_ids mid := mem_nlargestBy _ _ _ _ hp
    unfold candSims at hp2
    rw [List.mem_filterMap] at hp2
    obtain ⟨lid, hlid, hsome⟩ := hp2
    by_cases hki : a.knownItem lid = true
    · rw [if_pos hki] at hsome
      by_cases hth : (1 : ℚ)/10 < a.simFn mid lid
      · rw [if_pos hth] at hsome
        have hpv := Option.some.inj hsome
        rw [← hpv]
        exact ⟨hlid, rfl, hth⟩
      · rw [if_neg hth] at hsome
        cases hsome
    · rw [if_neg hki] at hsome
      cases hsome
  · intro hne
    cases hsel : rule1Selection a liked_ids mid with
    | nil => exact absurd hsel hne
    | cons p ps =>
        obtain ⟨hspec, hnempty⟩ :=
          explanationStep_spec a mi cache rated liked_ids mid hmid p ps hsel
        show (if (explanationStep a mi cache rated liked_ids mid).1 = ""
            then genericText else (explanationStep a mi cache rated liked_ids mid).1)
          = specNeighborText mi rated ((p :: ps).map (fun q => q.1))
        rw [if_neg hnempty, hspec]

/-- C7 witness: a candidate known to the concrete trainset, on which the
theorem's selection and rendering guarantees hold. -/
theorem C7_witness :
    algNew.knownItem 7 = true ∧
    ((rule1Selection algNew [7] 7).length ≤ 3 ∧
      (∀ p ∈ rule1Selection algNew [7] 7,
        p.1 ∈ [(7 : Int)] ∧ p.2 = algNew.simFn 7 p.1 ∧ (1 : ℚ)/10 < p.2) ∧
      (∃ rest, (candSims algNew [7] 7).Perm (rule1Selection algNew [7] 7 ++ rest) ∧
        ∀ p ∈ rule1Selection algNew [7] 7, ∀ q ∈ rest, q.2 ≤ p.2) ∧
      (rule1Selection algNew [7] 7 ≠ [] →
        (explanationFor algNew (buildMovieInfo rowsC1)
            (cacheAfterLoad (buildMovieInfo rowsC1) []) [(7, 4)] [7] 7).1 =
          specNeighborText (buildMovieInfo rowsC1) [(7, 4)]
            ((rule1Selection algNew [7] 7).map (fun q => q.1)))) :=
  ⟨by decide,
    C7_neighbor_rule algNew (buildMovieInfo rowsC1)
      (cacheAfterLoad (buildMovieInfo rowsC1) []) [(7, 4)] [7] 7 (by decide)⟩
